import Mathlib

/-!
Shallow embedding of the gofiddle/log package (leveled, pluggable-sink
logging with an asynchronous queue-backed writer), together with proofs
about its level filtering, formatting, async drain, close and
construction behaviour.  Definitions are translated from the Go source.
-/

namespace GofiddleLog

/-! ### Log levels

The source declares the levels with a const/iota block whose first slot is
discarded, so TRACE = 1 through FATAL = 6. -/

def LOG_LEVEL_TRACE : Int := 1

def LOG_LEVEL_DEBUG : Int := 2

def LOG_LEVEL_INFO : Int := 3

def LOG_LEVEL_WARN : Int := 4

def LOG_LEVEL_ERROR : Int := 5

def LOG_LEVEL_FATAL : Int := 6

/-- LogLevel2String from the source: switch on the level constants,
returning the canonical upper-case name, and the string Unknown on any
other integer. -/
def LogLevel2String (level : Int) : String :=
  if level = LOG_LEVEL_TRACE then "TRACE"
  else if level = LOG_LEVEL_DEBUG then "DEBUG"
  else if level = LOG_LEVEL_INFO then "INFO"
  else if level = LOG_LEVEL_WARN then "WARN"
  else if level = LOG_LEVEL_ERROR then "ERROR"
  else if level = LOG_LEVEL_FATAL then "FATAL"
  else "Unknown"

/-- strings.ToUpper from the Go standard library, as the source applies
it: map every character to its upper-case form (Char.toUpper agrees with
unicode.ToUpper on the ASCII level names being compared against). -/
def goToUpper (s : String) : String :=
  String.mk (s.data.map Char.toUpper)

/-- String2LogLevel from the source: upper-case the input first, then
switch on the names.  The source maps the string ERROR to LOG_LEVEL_WARN
(its own copy-paste collision) and returns -1 on any unrecognized
string. -/
def String2LogLevel (str : String) : Int :=
  if goToUpper str = "TRACE" then LOG_LEVEL_TRACE
  else if goToUpper str = "DEBUG" then LOG_LEVEL_DEBUG
  else if goToUpper str = "INFO" then LOG_LEVEL_INFO
  else if goToUpper str = "WARN" then LOG_LEVEL_WARN
  else if goToUpper str = "ERROR" then LOG_LEVEL_WARN
  else if goToUpper str = "FATAL" then LOG_LEVEL_FATAL
  else -1

/-! ### Time and the default formatter

Go time values are rendered by the default formatter through
t.UTC().Format with the layout string 2006-01-02T15:04:05 (MST).  We
model an instant by its UTC wall-clock fields; the zone conversion
performed by t.UTC() is external Go library code, so a GoTime here is the
instant already expressed in UTC, where the MST verb renders as UTC. -/

structure GoTime where
  year : Nat
  month : Nat
  day : Nat
  hour : Nat
  minute : Nat
  second : Nat
deriving DecidableEq

/-- Two-digit zero padding, as the Go layout verbs 01 02 15 04 05 do. -/
def pad2 (n : Nat) : String :=
  if n < 10 then "0" ++ toString n else toString n

/-- Four-digit zero padding, as the Go layout verb 2006 does for years. -/
def pad4 (n : Nat) : String :=
  if n < 10 then "000" ++ toString n
  else if n < 100 then "00" ++ toString n
  else if n < 1000 then "0" ++ toString n
  else toString n

/-- Rendering of a UTC instant under the Go layout
2006-01-02T15:04:05 (MST): date, the letter T, time, and the zone
abbreviation, which is UTC after the t.UTC() conversion. -/
def goTimeUTCStamp (t : GoTime) : String :=
  pad4 t.year ++ "-" ++ pad2 t.month ++ "-" ++ pad2 t.day ++ "T" ++
    pad2 t.hour ++ ":" ++ pad2 t.minute ++ ":" ++ pad2 t.second ++ " (UTC)"

/-- DefaultLogFormatter.Format from the source: Sprintf of
level string, colon-space, the UTC timestamp, colon-space, the message,
and a newline. -/
def DefaultLogFormatter.Format (t : GoTime) (level : Int) (message : String) : String :=
  LogLevel2String level ++ ": " ++ goTimeUTCStamp t ++ ": " ++ message ++ "\n"

/-- Modelled from the spec wording for the default wire format: a record
is LEVEL, colon-space, a YYYY-MM-DDTHH:MM:SS (TZ) timestamp with TZ
rendered in UTC, colon-space, the message, and one trailing newline. -/
def specWireFormat (levelStr timeStr message : String) : String :=
  levelStr ++ ": " ++ timeStr ++ ": " ++ message ++ "\n"

/-! ### Logger

The Logger struct holds a mutex, the level threshold, path and fname for
file loggers, an io.Writer, an optional io.WriteCloser (the owned
closable resource, aliasing the writer when the writer can be closed) and
a LogFormatter.  We model the io.Writer as a recording sink: some sink
is a live writer whose list records every byte string written to it, in
order, and none is the Go nil writer.  The io.WriteCloser is modeled by
a presence flag plus a closed flag for the underlying resource.  The
formatter is a function field, with none for a nil formatter. -/

structure Logger where
  level : Int
  path : String
  fname : String
  writer : Option (List String)
  hasWriteCloser : Bool
  writeCloserClosed : Bool
  formatter : Option (GoTime → Int → String → String)

/-- Observable side effects of one emission call: entering the formatter
under the mutex, and writing a byte string to the sink. -/
inductive LogEvent where
  | formatted (t : GoTime) (level : Int) (message : String)
  | wrote (data : String)
deriving DecidableEq

/-- New from the source: a logger over the given writer at the given
level with the default formatter; the writeCloser field is set exactly
when the supplied writer also implements io.WriteCloser, which we pass
as the isWriteCloser flag. -/
def New (w : Option (List String)) (isWriteCloser : Bool) (loglevel : Int) : Logger :=
  { level := loglevel
    path := ""
    fname := ""
    writer := w
    hasWriteCloser := isWriteCloser
    writeCloserClosed := false
    formatter := some DefaultLogFormatter.Format }

/-- Logger.Writer from the source: returns the current writer. -/
def Logger.Writer (logger : Logger) : Option (List String) :=
  logger.writer

/-- Logger.Format from the source: under the mutex, apply the formatter
when it is not nil, otherwise leave the message at the zero value. -/
def Logger.Format (logger : Logger) (t : GoTime) (level : Int) (message : String) : String :=
  match logger.formatter with
  | some f => f t level message
  | none => ""

/-- The shared tail of every emission function: if the writer is not
nil, write the formatted bytes to it once. -/
def Logger.writeMsg (logger : Logger) (msg : String) : Logger × List LogEvent :=
  match logger.Writer with
  | some sink => ({ logger with writer := some (sink ++ [msg]) }, [LogEvent.wrote msg])
  | none => (logger, [])

/-- Logger.Log from the source: when the given level passes the
threshold, render the arguments (fmt.Sprint, external; s is the rendered
string), format under the mutex and write once; otherwise do nothing.
Returns the updated logger and the trace of side effects. -/
def Logger.Log (logger : Logger) (loglevel : Int) (t : GoTime) (s : String) :
    Logger × List LogEvent :=
  if loglevel ≥ logger.level then
    let msg := logger.Format t loglevel s
    let r := logger.writeMsg msg
    (r.1, LogEvent.formatted t loglevel s :: r.2)
  else (logger, [])

/-- Logger.Logf from the source: as Logger.Log, with the arguments
rendered by fmt.Sprintf (external; s is the rendered string). -/
def Logger.Logf (logger : Logger) (loglevel : Int) (t : GoTime) (s : String) :
    Logger × List LogEvent :=
  if loglevel ≥ logger.level then
    let msg := logger.Format t loglevel s
    let r := logger.writeMsg msg
    (r.1, LogEvent.formatted t loglevel s :: r.2)
  else (logger, [])

/-- Logger.Logln from the source: as Logger.Log, with the arguments
rendered by fmt.Sprintln (external; s is the rendered string, which
Sprintln terminates with a newline). -/
def Logger.Logln (logger : Logger) (loglevel : Int) (t : GoTime) (s : String) :
    Logger × List LogEvent :=
  if loglevel ≥ logger.level then
    let msg := logger.Format t loglevel s
    let r := logger.writeMsg msg
    (r.1, LogEvent.formatted t loglevel s :: r.2)
  else (logger, [])

/-- Logger.Print from the source: no level filter; formats at the level
stored in the logger (the current threshold) and writes once when the
writer is not nil. -/
def Logger.Print (logger : Logger) (t : GoTime) (s : String) : Logger × List LogEvent :=
  let msg := logger.Format t logger.level s
  let r := logger.writeMsg msg
  (r.1, LogEvent.formatted t logger.level s :: r.2)

/-- Logger.Printf from the source: as Print, arguments rendered by
fmt.Sprintf. -/
def Logger.Printf (logger : Logger) (t : GoTime) (s : String) : Logger × List LogEvent :=
  let msg := logger.Format t logger.level s
  let r := logger.writeMsg msg
  (r.1, LogEvent.formatted t logger.level s :: r.2)

/-- Logger.Println from the source: as Print, arguments rendered by
fmt.Sprintln. -/
def Logger.Println (logger : Logger) (t : GoTime) (s : String) : Logger × List LogEvent :=
  let msg := logger.Format t logger.level s
  let r := logger.writeMsg msg
  (r.1, LogEvent.formatted t logger.level s :: r.2)

/-- Logger.Trace from the source: Log at LOG_LEVEL_TRACE. -/
def Logger.Trace (logger : Logger) (t : GoTime) (s : String) : Logger × List LogEvent :=
  logger.Log LOG_LEVEL_TRACE t s

/-- Logger.Debug from the source: Log at LOG_LEVEL_DEBUG. -/
def Logger.Debug (logger : Logger) (t : GoTime) (s : String) : Logger × List LogEvent :=
  logger.Log LOG_LEVEL_DEBUG t s

/-- Logger.Info from the source: Log at LOG_LEVEL_INFO. -/
def Logger.Info (logger : Logger) (t : GoTime) (s : String) : Logger × List LogEvent :=
  logger.Log LOG_LEVEL_INFO t s

/-- Logger.Warn from the source: Log at LOG_LEVEL_WARN. -/
def Logger.Warn (logger : Logger) (t : GoTime) (s : String) : Logger × List LogEvent :=
  logger.Log LOG_LEVEL_WARN t s

/-- Logger.Error from the source: Log at LOG_LEVEL_ERROR. -/
def Logger.Error (logger : Logger) (t : GoTime) (s : String) : Logger × List LogEvent :=
  logger.Log LOG_LEVEL_ERROR t s

/-! ### Termination family and Close -/

/-- How a terminating call ends the program: os.Exit with a code, or a
Go panic. -/
inductive TermKind where
  | exited (code : Nat)
  | panicked
deriving DecidableEq

/-- The resource-release fragment shared by Fatalf, Fatalln and the
Panic family: if the writeCloser is not nil, close it.  The error a
second close of the underlying resource would return is discarded by the
caller, so only the closed flag changes. -/
def Logger.closeWriteCloser (logger : Logger) : Logger :=
  if logger.hasWriteCloser then { logger with writeCloserClosed := true } else logger

/-- Logger.Fatal from the source: Log at LOG_LEVEL_FATAL, then
os.Exit(1).  Note the source does not close the writeCloser here, unlike
Fatalf and Fatalln. -/
def Logger.Fatal (logger : Logger) (t : GoTime) (s : String) :
    Logger × List LogEvent × TermKind :=
  let r := logger.Log LOG_LEVEL_FATAL t s
  (r.1, r.2, TermKind.exited 1)

/-- Logger.Fatalf from the source: Logf at LOG_LEVEL_FATAL, close the
writeCloser when present, then os.Exit(1). -/
def Logger.Fatalf (logger : Logger) (t : GoTime) (s : String) :
    Logger × List LogEvent × TermKind :=
  let r := logger.Logf LOG_LEVEL_FATAL t s
  (r.1.closeWriteCloser, r.2, TermKind.exited 1)

/-- Logger.Fatalln from the source: Logln at LOG_LEVEL_FATAL, close the
writeCloser when present, then os.Exit(1). -/
def Logger.Fatalln (logger : Logger) (t : GoTime) (s : String) :
    Logger × List LogEvent × TermKind :=
  let r := logger.Logln LOG_LEVEL_FATAL t s
  (r.1.closeWriteCloser, r.2, TermKind.exited 1)

/-- Logger.Panic from the source: Log at LOG_LEVEL_FATAL, close the
writeCloser when present, then panic. -/
def Logger.Panic (logger : Logger) (t : GoTime) (s : String) :
    Logger × List LogEvent × TermKind :=
  let r := logger.Log LOG_LEVEL_FATAL t s
  (r.1.closeWriteCloser, r.2, TermKind.panicked)

/-- Logger.Panicf from the source: Logf at LOG_LEVEL_FATAL, close the
writeCloser when present, then panic. -/
def Logger.Panicf (logger : Logger) (t : GoTime) (s : String) :
    Logger × List LogEvent × TermKind :=
  let r := logger.Logf LOG_LEVEL_FATAL t s
  (r.1.closeWriteCloser, r.2, TermKind.panicked)

/-- Logger.Panicln from the source: Logln at LOG_LEVEL_FATAL, close the
writeCloser when present, then panic. -/
def Logger.Panicln (logger : Logger) (t : GoTime) (s : String) :
    Logger × List LogEvent × TermKind :=
  let r := logger.Logln LOG_LEVEL_FATAL t s
  (r.1.closeWriteCloser, r.2, TermKind.panicked)

/-- Logger.Close from the source: under the mutex, if the writeCloser is
not nil, close it; the error returned by the underlying Close (non-nil
when the resource was already closed) is discarded, and Logger.Close
itself returns nothing, so no error ever reaches its caller. -/
def Logger.Close (logger : Logger) : Logger :=
  if logger.hasWriteCloser then { logger with writeCloserClosed := true } else logger

/-! ### AsyncLogWriter

The AsyncLogWriter owns a buffered channel of LogMessage, the wrapped
io.Writer and a completion channel.  Exactly one worker goroutine is
launched at construction; it ranges over the queue, performing one write
attempt per message against the wrapped writer in FIFO order and
discarding any write error, and when the queue is closed and drained it
sends the single completion signal.  We model message data as byte lists,
the wrapped writer as a recording sink (the received list, one entry per
write attempt, in order) whose per-message failure behaviour is the
sinkFails predicate, and the queue as its FIFO contents plus a closed
flag.  The single worker delivers queued messages in enqueue order
whether it runs between enqueues or at close, so the model performs the
drain when Close closes the queue; the post-Close observables are the
same.  Go runtime faults (close of a closed channel) are the error case
of Except. -/

structure AsyncLogWriter where
  queue : List (List Nat)
  queueClosed : Bool
  received : List (List Nat)
  sinkFails : List Nat → Bool

/-- The default queue capacity from the source. -/
def DEFAULT_QUEUE_SIZE : Int := 100

/-- NewAsyncLogWriter from the source: normalize a non-positive capacity
to DEFAULT_QUEUE_SIZE, make the queue and the completion channel, and
launch the single worker.  The capacity only bounds how many messages
may sit in the queue before Write blocks; it does not affect the
post-Close observables, so the model keeps the queue as an unbounded
list. -/
def NewAsyncLogWriter (sinkFails : List Nat → Bool) (n : Int) : AsyncLogWriter :=
  let _capacity := if n ≤ 0 then DEFAULT_QUEUE_SIZE else n
  { queue := []
    queueClosed := false
    received := []
    sinkFails := sinkFails }

/-- AsyncLogWriter.Write from the source: enqueue the data as a
LogMessage (blocking while the queue is full, never dropping) and return
its length with a nil error; a send on a closed queue is a Go runtime
panic. -/
def AsyncLogWriter.Write (w : AsyncLogWriter) (data : List Nat) :
    Except String (AsyncLogWriter × Nat × Option String) :=
  if w.queueClosed then Except.error "send on closed channel"
  else Except.ok ({ w with queue := w.queue ++ [data] }, data.length, none)

/-- The worker loop from the source: range over the queued messages in
FIFO order, performing one write attempt per message against the wrapped
writer; a failed write simply discards the message (other
implementations might resend it). -/
def drainLoop (sinkFails : List Nat → Bool) (received : List (List Nat)) :
    List (List Nat) → List (List Nat)
  | [] => received
  | msg :: rest =>
    let attempt : List (List Nat) × Option String :=
      (received ++ [msg], if sinkFails msg then some "write error" else none)
    drainLoop sinkFails attempt.1 rest

/-- AsyncLogWriter.Close from the source: close the queue, which is a Go
runtime panic when the queue is already closed, then block on the
completion channel until the worker has drained every queued message and
sent the single completion signal. -/
def AsyncLogWriter.Close (w : AsyncLogWriter) : Except String AsyncLogWriter :=
  if w.queueClosed then Except.error "close of closed channel"
  else Except.ok
    { queue := []
      queueClosed := true
      received := drainLoop w.sinkFails w.received w.queue
      sinkFails := w.sinkFails }

/-- A single producer thread calling Write once per message, in order,
collecting the value each Write returned to the producer. -/
def enqueueAll (w : AsyncLogWriter) :
    List (List Nat) → Except String (AsyncLogWriter × List (Nat × Option String))
  | [] => Except.ok (w, [])
  | msg :: rest =>
    match w.Write msg with
    | Except.error e => Except.error e
    | Except.ok (w1, n, err) =>
      match enqueueAll w1 rest with
      | Except.error e => Except.error e
      | Except.ok (w2, results) => Except.ok (w2, (n, err) :: results)

/-! ### HTTPLogWriter

The HTTP writer POSTs the raw bytes to its URL with content type
html/text.  The transport (http.Post) is external: its outcome is either
a transport error, in which case no response exists, or a response
carrying a status code and a body. -/

inductive HTTPResult where
  | transportError (e : String)
  | response (statusCode : Nat)
deriving DecidableEq

/-- What one call to HTTPLogWriter.Write produces: the byte count and
error returned to the caller, and whether the response body was closed
(meaningful only when a response exists). -/
structure HTTPWriteOutcome where
  n : Nat
  err : Option String
  bodyClosed : Bool
deriving DecidableEq

/-- HTTPLogWriter.Write from the source: POST the data; on a transport
error return (0, err); otherwise defer the body close (so the body is
released on every remaining path), and if the status code is not 200
return (0, a fresh error mentioning the status), else return
(len(data), nil).  The Go code builds the error text with the %s verb on
an int; only that the error is non-nil matters here. -/
def HTTPLogWriter.Write (post : HTTPResult) (data : List Nat) : HTTPWriteOutcome :=
  match post with
  | HTTPResult.transportError e => { n := 0, err := some e, bodyClosed := false }
  | HTTPResult.response statusCode =>
    if statusCode ≠ 200 then
      { n := 0
        err := some ("HTTPLogWriter: " ++ toString statusCode ++ " error!")
        bodyClosed := true }
    else { n := data.length, err := none, bodyClosed := true }

/-! ### NewFileLogger

Directory creation and file opening are external OS operations; an FS
record supplies their outcomes.  The Go flag and permission constants
are the Linux values the source passes. -/

def O_WRONLY : Nat := 1

def O_CREATE : Nat := 64

def O_APPEND : Nat := 1024

/-- The outcomes of the OS calls NewFileLogger makes: MkdirAll returns
an optional error; OpenFile, given path, flags and permissions, returns
a file handle or an error. -/
structure FS where
  mkdirAll : String → Nat → Option String
  openFile : String → Nat → Nat → Except String Nat

/-- NewFileLogger from the source: create the log directory (propagating
the error on failure), default an empty fname to the program name
(path.Base of os.Args[0], external, passed as progName), build the path
logpath/fname.log with Sprintf, open it with O_CREATE, O_WRONLY and
O_APPEND at permission 0o640 (propagating the error on failure), and
return the logger whose writer and writeCloser are the opened file. -/
def NewFileLogger (fs : FS) (progName : String) (logpath fname : String)
    (loglevel : Int) : Except String Logger :=
  match fs.mkdirAll logpath 0o750 with
  | some e => Except.error e
  | none =>
    let fname := if fname = "" then progName else fname
    let filepath := logpath ++ "/" ++ fname ++ ".log"
    match fs.openFile filepath (O_CREATE + O_WRONLY + O_APPEND) 0o640 with
    | Except.error e => Except.error e
    | Except.ok _file =>
      Except.ok
        { level := loglevel
          path := logpath
          fname := fname
          writer := some []
          hasWriteCloser := true
          writeCloserClosed := false
          formatter := some DefaultLogFormatter.Format }

/-! ### Concrete fixtures used by scenario theorems and witnesses -/

/-- A fixed instant, the reference time of the Go layout string. -/
def t0 : GoTime :=
  { year := 2006, month := 1, day := 2, hour := 15, minute := 4, second := 5 }

/-- A logger at INFO over a recording sink, as in scenario A. -/
def recLogger : Logger := New (some []) false LOG_LEVEL_INFO

/-- A logger at INFO over a recording sink that also owns a closable
resource, for the termination and close claims. -/
def ownedResourceLogger : Logger := New (some []) true LOG_LEVEL_INFO

/-! ### Helper lemmas -/

/-- Writing to the sink never touches the writeCloser flags. -/
theorem writeMsg_fields (lg : Logger) (msg : String) :
    (lg.writeMsg msg).1.writeCloserClosed = lg.writeCloserClosed ∧
      (lg.writeMsg msg).1.hasWriteCloser = lg.hasWriteCloser := by
  cases h : lg.writer <;> simp [Logger.writeMsg, Logger.Writer, h]

/-- An emission through Log never touches the writeCloser flags. -/
theorem log_fields (lg : Logger) (L : Int) (t : GoTime) (s : String) :
    ((lg.Log L t s).1.writeCloserClosed = lg.writeCloserClosed ∧
      (lg.Log L t s).1.hasWriteCloser = lg.hasWriteCloser) ∧
    ((lg.Logf L t s).1.writeCloserClosed = lg.writeCloserClosed ∧
      (lg.Logf L t s).1.hasWriteCloser = lg.hasWriteCloser) ∧
    ((lg.Logln L t s).1.writeCloserClosed = lg.writeCloserClosed ∧
      (lg.Logln L t s).1.hasWriteCloser = lg.hasWriteCloser) := by
  by_cases h : L ≥ lg.level <;>
    simp [Logger.Log, Logger.Logf, Logger.Logln, h, writeMsg_fields]

/-- Draining the worker loop appends the queued messages, in order, to
the record of write attempts, whatever the sink failure behaviour. -/
theorem drainLoop_eq (sinkFails : List Nat → Bool) (received q : List (List Nat)) :
    drainLoop sinkFails received q = received ++ q := by
  induction q generalizing received with
  | nil => simp [drainLoop]
  | cons m rest ih => simp [drainLoop, ih]

/-- A single producer enqueueing into an open writer: every Write
succeeds, returns the length and a nil error, and the queue accumulates
the messages in order. -/
theorem enqueueAll_open (msgs : List (List Nat)) (w : AsyncLogWriter)
    (h : w.queueClosed = false) :
    enqueueAll w msgs =
      Except.ok ({ w with queue := w.queue ++ msgs },
        msgs.map fun m => (m.length, (none : Option String))) := by
  induction msgs generalizing w with
  | nil => simp [enqueueAll]
  | cons m rest ih =>
    have hw : w.Write m = Except.ok ({ w with queue := w.queue ++ [m] }, m.length, none) := by
      simp [AsyncLogWriter.Write, h]
    simp only [enqueueAll, hw]
    rw [ih { w with queue := w.queue ++ [m] } h]
    simp

/-- Appending a newline makes the newline the last character. -/
theorem data_getLast_newline (x : String) :
    (x ++ "\n").data.getLast? = some '\n' := by
  rw [String.data_append, List.getLast?_append_of_ne_nil _ (by decide)]
  rfl

/-! ### Claim theorems -/

/-- Claim C7: level-to-string-to-level is the identity for TRACE, DEBUG,
INFO, WARN and FATAL; ERROR is excluded, and indeed fails the
round-trip, because the parser maps the string ERROR to WARN. -/
theorem level_string_roundtrip :
    String2LogLevel (LogLevel2String LOG_LEVEL_TRACE) = LOG_LEVEL_TRACE ∧
    String2LogLevel (LogLevel2String LOG_LEVEL_DEBUG) = LOG_LEVEL_DEBUG ∧
    String2LogLevel (LogLevel2String LOG_LEVEL_INFO) = LOG_LEVEL_INFO ∧
    String2LogLevel (LogLevel2String LOG_LEVEL_WARN) = LOG_LEVEL_WARN ∧
    String2LogLevel (LogLevel2String LOG_LEVEL_FATAL) = LOG_LEVEL_FATAL ∧
    String2LogLevel (LogLevel2String LOG_LEVEL_ERROR) ≠ LOG_LEVEL_ERROR := by
  refine ⟨?_, ?_, ?_, ?_, ?_, ?_⟩ <;> decide

/-- Claim C8: the parser upper-cases its input and maps the string ERROR,
in any letter case, to LOG_LEVEL_WARN rather than LOG_LEVEL_ERROR, and
returns the sentinel -1 on every string whose upper-casing is none of
the six recognized level names. -/
theorem error_parse_anomaly :
    String2LogLevel "ERROR" = LOG_LEVEL_WARN ∧
    String2LogLevel "error" = LOG_LEVEL_WARN ∧
    (∀ s : String, goToUpper s = "ERROR" → String2LogLevel s = LOG_LEVEL_WARN) ∧
    (∀ s : String,
        goToUpper s ≠ "TRACE" → goToUpper s ≠ "DEBUG" → goToUpper s ≠ "INFO" →
        goToUpper s ≠ "WARN" → goToUpper s ≠ "ERROR" → goToUpper s ≠ "FATAL" →
        String2LogLevel s = -1) := by
  refine ⟨by decide, by decide, ?_, ?_⟩
  · intro s h
    unfold String2LogLevel
    rw [h]
    decide
  · intro s h1 h2 h3 h4 h5 h6
    unfold String2LogLevel
    rw [if_neg h1, if_neg h2, if_neg h3, if_neg h4, if_neg h5, if_neg h6]

/-- Closed instance of the hypotheses of error_parse_anomaly: a
mixed-case spelling of ERROR still parses to WARN, and an unrecognized
string parses to the sentinel -1. -/
theorem error_parse_anomaly_witness :
    String2LogLevel "eRrOr" = LOG_LEVEL_WARN ∧ String2LogLevel "bogus" = -1 :=
  ⟨error_parse_anomaly.2.2.1 "eRrOr" (by decide),
    error_parse_anomaly.2.2.2 "bogus" (by decide) (by decide) (by decide)
      (by decide) (by decide) (by decide)⟩

/-- Claim C2: a single producer enqueueing N messages into a fresh
AsyncLogWriter sees every Write return the length and a nil error (sink
failures never propagate to the producer); after Close returns, the
wrapped sink has received exactly the N messages, in enqueue order, one
write attempt each, no duplicates and no loss, whatever the per-message
sink failure behaviour. -/
theorem async_fifo_drain (msgs : List (List Nat)) (sinkFails : List Nat → Bool) (n : Int) :
    ∃ w1 : AsyncLogWriter,
      enqueueAll (NewAsyncLogWriter sinkFails n) msgs =
        Except.ok (w1, msgs.map fun m => (m.length, (none : Option String))) ∧
      ∃ w2 : AsyncLogWriter, w1.Close = Except.ok w2 ∧ w2.received = msgs := by
  refine ⟨{ queue := msgs, queueClosed := false, received := [], sinkFails := sinkFails },
    ?_, ?_⟩
  · have := enqueueAll_open msgs (NewAsyncLogWriter sinkFails n) rfl
    simpa [NewAsyncLogWriter] using this
  · exact ⟨_, rfl, by simp [AsyncLogWriter.Close, drainLoop_eq]⟩

/-- Claim C3: HTTPLogWriter.Write returns a non-nil error on a transport
error, and also on any response whose status code is not 200 (a 500
response is a write failure even though the POST was transmitted), and
the response body is released regardless of status. -/
theorem http_write_failure :
    (∀ (e : String) (data : List Nat),
        (HTTPLogWriter.Write (HTTPResult.transportError e) data).err = some e) ∧
    (∀ (code : Nat) (data : List Nat), code ≠ 200 →
        (HTTPLogWriter.Write (HTTPResult.response code) data).err ≠ none ∧
        (HTTPLogWriter.Write (HTTPResult.response code) data).n = 0) ∧
    (∀ (code : Nat) (data : List Nat),
        (HTTPLogWriter.Write (HTTPResult.response code) data).bodyClosed = true) ∧
    (∀ data : List Nat,
        (HTTPLogWriter.Write (HTTPResult.response 500) data).err ≠ none) := by
  refine ⟨fun e data => rfl, ?_, ?_, ?_⟩
  · intro code data h
    simp [HTTPLogWriter.Write, h]
  · intro code data
    by_cases h : code = 200 <;> simp [HTTPLogWriter.Write, h]
  · intro data
    simp [HTTPLogWriter.Write]

/-- Closed instance of the hypotheses of http_write_failure: a 500
response yields a non-nil error with zero bytes reported written. -/
theorem http_write_failure_witness :
    (HTTPLogWriter.Write (HTTPResult.response 500) []).err ≠ none ∧
    (HTTPLogWriter.Write (HTTPResult.response 500) []).n = 0 :=
  http_write_failure.2.1 500 [] (by decide)

/-- Claim C1: strictly below the threshold, Log, Logf and Logln perform
no formatting and no write and leave the logger untouched; at or above
the threshold, each performs one format and exactly one write to the
sink; and scenario A: a logger at INFO receiving one call each of Trace,
Debug, Info, Warn, Error holds exactly the three records Info, Warn,
Error, in that order. -/
theorem level_threshold_filtering :
    (∀ (lg : Logger) (L : Int) (t : GoTime) (s : String), L < lg.level →
      lg.Log L t s = (lg, []) ∧ lg.Logf L t s = (lg, []) ∧ lg.Logln L t s = (lg, [])) ∧
    (∀ (lg : Logger) (L : Int) (t : GoTime) (s : String) (sink : List String),
      lg.level ≤ L → lg.writer = some sink →
      lg.Log L t s =
        ({ lg with writer := some (sink ++ [lg.Format t L s]) },
          [LogEvent.formatted t L s, LogEvent.wrote (lg.Format t L s)]) ∧
      lg.Logf L t s =
        ({ lg with writer := some (sink ++ [lg.Format t L s]) },
          [LogEvent.formatted t L s, LogEvent.wrote (lg.Format t L s)]) ∧
      lg.Logln L t s =
        ({ lg with writer := some (sink ++ [lg.Format t L s]) },
          [LogEvent.formatted t L s, LogEvent.wrote (lg.Format t L s)])) ∧
    ((((((recLogger.Trace t0 "trace msg").1.Debug t0 "debug msg").1.Info t0
            "info msg").1.Warn t0 "warn msg").1.Error t0 "error msg").1.writer =
      some [DefaultLogFormatter.Format t0 LOG_LEVEL_INFO "info msg",
        DefaultLogFormatter.Format t0 LOG_LEVEL_WARN "warn msg",
        DefaultLogFormatter.Format t0 LOG_LEVEL_ERROR "error msg"]) := by
  refine ⟨?_, ?_, ?_⟩
  · intro lg L t s h
    have hlt : ¬ L ≥ lg.level := not_le.mpr h
    exact ⟨by simp [Logger.Log, hlt], by simp [Logger.Logf, hlt], by simp [Logger.Logln, hlt]⟩
  · intro lg L t s sink hL hw
    have hge : L ≥ lg.level := hL
    refine ⟨?_, ?_, ?_⟩ <;>
      simp [Logger.Log, Logger.Logf, Logger.Logln, Logger.writeMsg, Logger.Writer, hw, hge]
  · rfl

/-- Closed instance of the hypotheses of level_threshold_filtering: at
the INFO threshold a TRACE call is a no-op, and an ERROR call appends
exactly one record to the sink. -/
theorem level_threshold_filtering_witness :
    recLogger.Log LOG_LEVEL_TRACE t0 "x" = (recLogger, []) ∧
    recLogger.Log LOG_LEVEL_ERROR t0 "y" =
      ({ recLogger with writer := some ([] ++ [recLogger.Format t0 LOG_LEVEL_ERROR "y"]) },
        [LogEvent.formatted t0 LOG_LEVEL_ERROR "y",
          LogEvent.wrote (recLogger.Format t0 LOG_LEVEL_ERROR "y")]) :=
  ⟨(level_threshold_filtering.1 recLogger LOG_LEVEL_TRACE t0 "x" (by decide)).1,
    (level_threshold_filtering.2.1 recLogger LOG_LEVEL_ERROR t0 "y" [] (by decide) rfl).1⟩

/-- Claim C6: for every timestamp, valid level and message, the default
formatter produces exactly the record level string, colon-space, the
UTC-rendered YYYY-MM-DDTHH:MM:SS (TZ) timestamp, colon-space, the
message and the single newline the template appends; for a valid level
the level string is the canonical name, not the Unknown fallback, and
the last character of the record is the newline. -/
theorem default_wire_format (t : GoTime) (L : Int) (m : String)
    (h : 1 ≤ L ∧ L ≤ 6) :
    DefaultLogFormatter.Format t L m =
      specWireFormat (LogLevel2String L) (goTimeUTCStamp t) m ∧
    LogLevel2String L ≠ "Unknown" ∧
    (DefaultLogFormatter.Format t L m).data.getLast? = some '\n' := by
  refine ⟨rfl, ?_, ?_⟩
  · obtain ⟨h1, h2⟩ := h
    interval_cases L <;> decide
  · show ((LogLevel2String L ++ ": " ++ goTimeUTCStamp t ++ ": " ++ m) ++ "\n").data.getLast?
        = some '\n'
    exact data_getLast_newline _

/-- Closed instance of the hypotheses of default_wire_format, at the
INFO level over the reference instant. -/
theorem default_wire_format_witness :
    DefaultLogFormatter.Format t0 LOG_LEVEL_INFO "Hello World!" =
      specWireFormat (LogLevel2String LOG_LEVEL_INFO) (goTimeUTCStamp t0) "Hello World!" ∧
    LogLevel2String LOG_LEVEL_INFO ≠ "Unknown" ∧
    (DefaultLogFormatter.Format t0 LOG_LEVEL_INFO "Hello World!").data.getLast? = some '\n' :=
  default_wire_format t0 LOG_LEVEL_INFO "Hello World!" (by decide)

/-- Claim C10: Print, Printf and Println ignore the level threshold:
whatever the current level, each formats once and writes exactly one
record to the sink, and the level value handed to the formatter is the
current threshold itself. -/
theorem print_bypasses_filter (lg : Logger) (t : GoTime) (s : String)
    (sink : List String) (hw : lg.writer = some sink) :
    lg.Print t s =
      ({ lg with writer := some (sink ++ [lg.Format t lg.level s]) },
        [LogEvent.formatted t lg.level s, LogEvent.wrote (lg.Format t lg.level s)]) ∧
    lg.Printf t s =
      ({ lg with writer := some (sink ++ [lg.Format t lg.level s]) },
        [LogEvent.formatted t lg.level s, LogEvent.wrote (lg.Format t lg.level s)]) ∧
    lg.Println t s =
      ({ lg with writer := some (sink ++ [lg.Format t lg.level s]) },
        [LogEvent.formatted t lg.level s, LogEvent.wrote (lg.Format t lg.level s)]) := by
  refine ⟨?_, ?_, ?_⟩ <;>
    simp [Logger.Print, Logger.Printf, Logger.Println, Logger.writeMsg, Logger.Writer, hw]

/-- Closed instance of the hypotheses of print_bypasses_filter: a logger
whose threshold is FATAL still writes one Print record, labeled FATAL. -/
theorem print_bypasses_filter_witness :
    ((New (some []) false LOG_LEVEL_FATAL).Print t0 "p").1.writer =
      some [DefaultLogFormatter.Format t0 LOG_LEVEL_FATAL "p"] := by
  rw [(print_bypasses_filter (New (some []) false LOG_LEVEL_FATAL) t0 "p" [] rfl).1]
  rfl

/-- Counterexample to claim C4 as stated: on a freshly constructed
AsyncLogWriter, the first Close succeeds, but the second Close executes
close on an already-closed queue channel, which is a Go runtime panic
(modeled as the error case), so a second Close on an AsyncLogWriter does
panic. -/
theorem asyncwriter_double_close_panics :
    ((NewAsyncLogWriter (fun _ => false) 0).Close).bind AsyncLogWriter.Close =
      Except.error "close of closed channel" := rfl

/-- Claim C4, amended: Logger.Close is idempotent; a second call returns
without panicking and reports no error, because the error of re-closing
the underlying resource is discarded and Logger.Close returns nothing;
AsyncLogWriter.Close, however, is single-shot: after a first successful
Close, a second Close panics by closing an already-closed channel. -/
theorem close_idempotence_amended :
    (∀ lg : Logger, lg.Close.Close = lg.Close) ∧
    (∀ (sinkFails : List Nat → Bool) (n : Int) (w1 : AsyncLogWriter),
        (NewAsyncLogWriter sinkFails n).Close = Except.ok w1 →
        w1.Close = Except.error "close of closed channel") := by
  constructor
  · intro lg
    by_cases h : lg.hasWriteCloser <;> simp [Logger.Close, h]
  · intro sinkFails n w1 h
    have hw : w1 =
        { queue := [], queueClosed := true, received := drainLoop sinkFails [] [],
          sinkFails := sinkFails } := by
      simpa [NewAsyncLogWriter, AsyncLogWriter.Close] using h.symm
    rw [hw]
    rfl

/-- Closed instance of the hypotheses of close_idempotence_amended: a
double Logger.Close on a logger owning a closable resource equals a
single Close, and the concrete writer a first AsyncLogWriter.Close
returns panics when closed again. -/
theorem close_idempotence_amended_witness :
    ownedResourceLogger.Close.Close = ownedResourceLogger.Close ∧
    ({ queue := [], queueClosed := true, received := drainLoop (fun _ => false) [] [],
        sinkFails := fun _ => false } : AsyncLogWriter).Close =
      Except.error "close of closed channel" :=
  ⟨close_idempotence_amended.1 ownedResourceLogger,
    close_idempotence_amended.2 (fun _ => false) 0 _ rfl⟩

/-- Counterexample to claim C5 as stated: on a logger that owns a
closable resource, Logger.Fatal exits the process without closing the
writeCloser, so not every Fatal-family call releases the owned
resource. -/
theorem fatal_skips_release_counterexample :
    ownedResourceLogger.hasWriteCloser = true ∧
    (ownedResourceLogger.Fatal t0 "boom").1.writeCloserClosed = false ∧
    (ownedResourceLogger.Fatal t0 "boom").2.2 = TermKind.exited 1 :=
  ⟨rfl, rfl, rfl⟩

/-- Claim C5, amended: Fatalf and Fatalln close the writeCloser when
present and then exit the process with code 1; Fatal exits the process
with code 1 without touching the writeCloser; Panic, Panicf and Panicln
close the writeCloser when present and then panic instead of exiting;
and in every case the termination happens unconditionally on invocation,
for every threshold, independent of whether the FATAL message passed the
level filter. -/
theorem fatal_panic_termination (lg : Logger) (t : GoTime) (s : String) :
    ((lg.Fatal t s).2.2 = TermKind.exited 1 ∧
      (lg.Fatal t s).1.writeCloserClosed = lg.writeCloserClosed) ∧
    ((lg.Fatalf t s).2.2 = TermKind.exited 1 ∧
      (lg.hasWriteCloser = true → (lg.Fatalf t s).1.writeCloserClosed = true)) ∧
    ((lg.Fatalln t s).2.2 = TermKind.exited 1 ∧
      (lg.hasWriteCloser = true → (lg.Fatalln t s).1.writeCloserClosed = true)) ∧
    ((lg.Panic t s).2.2 = TermKind.panicked ∧
      (lg.hasWriteCloser = true → (lg.Panic t s).1.writeCloserClosed = true)) ∧
    ((lg.Panicf t s).2.2 = TermKind.panicked ∧
      (lg.hasWriteCloser = true → (lg.Panicf t s).1.writeCloserClosed = true)) ∧
    ((lg.Panicln t s).2.2 = TermKind.panicked ∧
      (lg.hasWriteCloser = true → (lg.Panicln t s).1.writeCloserClosed = true)) := by
  have hf := log_fields lg LOG_LEVEL_FATAL t s
  refine ⟨⟨rfl, ?_⟩, ⟨rfl, ?_⟩, ⟨rfl, ?_⟩, ⟨rfl, ?_⟩, ⟨rfl, ?_⟩, ⟨rfl, ?_⟩⟩
  · exact hf.1.1
  · intro h
    simp [Logger.Fatalf, Logger.closeWriteCloser, hf.2.1.2, h]
  · intro h
    simp [Logger.Fatalln, Logger.closeWriteCloser, hf.2.2.2, h]
  · intro h
    simp [Logger.Panic, Logger.closeWriteCloser, hf.1.2, h]
  · intro h
    simp [Logger.Panicf, Logger.closeWriteCloser, hf.2.1.2, h]
  · intro h
    simp [Logger.Panicln, Logger.closeWriteCloser, hf.2.2.2, h]

/-- Closed instance of the hypotheses of fatal_panic_termination: on a
logger owning a closable resource, Fatalf closes it before exiting and
Panic closes it before panicking. -/
theorem fatal_panic_termination_witness :
    (ownedResourceLogger.Fatalf t0 "m").1.writeCloserClosed = true ∧
    (ownedResourceLogger.Panic t0 "m").1.writeCloserClosed = true :=
  ⟨(fatal_panic_termination ownedResourceLogger t0 "m").2.1.2 rfl,
    (fatal_panic_termination ownedResourceLogger t0 "m").2.2.2.1.2 rfl⟩

/-- Claim C9: NewFileLogger propagates a directory-creation error or a
file-open error to the caller as a fallible-construction result instead
of crashing; on success the file at logpath/fname.log is opened with
the create-if-absent, write-only, append flags at permission 0o640, the
fname defaults to the program name when empty, and the logger owns the
opened file as both writer and writeCloser. -/
theorem file_logger_construction :
    (∀ (fs : FS) (progName logpath fname : String) (loglevel : Int) (e : String),
        fs.mkdirAll logpath 0o750 = some e →
        NewFileLogger fs progName logpath fname loglevel = Except.error e) ∧
    (∀ (fs : FS) (progName logpath fname : String) (loglevel : Int) (e : String),
        fs.mkdirAll logpath 0o750 = none →
        fs.openFile (logpath ++ "/" ++ (if fname = "" then progName else fname) ++ ".log")
            (O_CREATE + O_WRONLY + O_APPEND) 0o640 = Except.error e →
        NewFileLogger fs progName logpath fname loglevel = Except.error e) ∧
    (∀ (fs : FS) (progName logpath fname : String) (loglevel : Int) (handle : Nat),
        fs.mkdirAll logpath 0o750 = none →
        fs.openFile (logpath ++ "/" ++ (if fname = "" then progName else fname) ++ ".log")
            (O_CREATE + O_WRONLY + O_APPEND) 0o640 = Except.ok handle →
        NewFileLogger fs progName logpath fname loglevel =
          Except.ok
            { level := loglevel
              path := logpath
              fname := if fname = "" then progName else fname
              writer := some []
              hasWriteCloser := true
              writeCloserClosed := false
              formatter := some DefaultLogFormatter.Format }) := by
  refine ⟨?_, ?_, ?_⟩
  · intro fs progName logpath fname loglevel e h1
    simp [NewFileLogger, h1]
  · intro fs progName logpath fname loglevel e h1 h2
    simp [NewFileLogger, h1, h2]
  · intro fs progName logpath fname loglevel handle h1 h2
    simp [NewFileLogger, h1, h2]

/-- Closed instance of the hypotheses of file_logger_construction: an OS
in which directory creation fails makes construction return that exact
error; an OS in which both calls succeed yields the logger with the
defaulted file name. -/
theorem file_logger_construction_witness :
    NewFileLogger
        { mkdirAll := fun _ _ => some "permission denied"
          openFile := fun _ _ _ => Except.error "unreachable" }
        "prog" "/var/log" "gofiddle" LOG_LEVEL_INFO =
      Except.error "permission denied" ∧
    NewFileLogger
        { mkdirAll := fun _ _ => none, openFile := fun _ _ _ => Except.ok 3 }
        "prog" "/var/log" "" LOG_LEVEL_INFO =
      Except.ok
        { level := LOG_LEVEL_INFO
          path := "/var/log"
          fname := if "" = "" then "prog" else ""
          writer := some []
          hasWriteCloser := true
          writeCloserClosed := false
          formatter := some DefaultLogFormatter.Format } :=
  ⟨file_logger_construction.1
      { mkdirAll := fun _ _ => some "permission denied"
        openFile := fun _ _ _ => Except.error "unreachable" }
      "prog" "/var/log" "gofiddle" LOG_LEVEL_INFO "permission denied" rfl,
    file_logger_construction.2.2
      { mkdirAll := fun _ _ => none, openFile := fun _ _ _ => Except.ok 3 }
      "prog" "/var/log" "" LOG_LEVEL_INFO 3 rfl rfl⟩

end GofiddleLog
